import Mathlib

/-!
Verification of the postgresql gateway (postgresql-mcp.py) against its
natural-language specification.  The Python source is shallowly embedded:
Python dicts become association lists that keep insertion order, the
driver (psycopg2) is an explicit oracle value, and the mutable dict
objects touched by get_connection are modelled with an explicit heap of
dict objects so that aliasing and in-place mutation are faithful.
-/

namespace PgMcp

/-! ### Ordered association lists: the model of a Python dict.

Python dicts preserve insertion order; updating an existing key keeps its
position, inserting a new key appends it at the end.  Keys of a real
Python dict are unique; lemmas that need uniqueness take a Nodup
hypothesis on the key list. -/

def lookupFirst {κ α : Type} [DecidableEq κ] : List (κ × α) → κ → Option α
  | [], _ => none
  | p :: rest, k => if p.1 = k then some p.2 else lookupFirst rest k

def setFirst {κ α : Type} [DecidableEq κ] : List (κ × α) → κ → α → List (κ × α)
  | [], k, v => [(k, v)]
  | p :: rest, k, v => if p.1 = k then (k, v) :: rest else p :: setFirst rest k v

def removeFirst {κ α : Type} [DecidableEq κ] : List (κ × α) → κ → List (κ × α)
  | [], _ => []
  | p :: rest, k => if p.1 = k then rest else p :: removeFirst rest k

/-- Model of Python dict.update: entries of the overlay are written into the
base dict one by one, in the overlay's order. -/
def dictUpdate {κ α : Type} [DecidableEq κ] (d o : List (κ × α)) : List (κ × α) :=
  o.foldl (fun acc p => setFirst acc p.1 p.2) d

/-- Model of Python dict.pop with a default: the looked-up value (if any)
together with the dict with the first binding of the key removed. -/
def popFirst {κ α : Type} [DecidableEq κ] (l : List (κ × α)) (k : κ) :
    Option α × List (κ × α) :=
  (lookupFirst l k, removeFirst l k)

theorem lookupFirst_setFirst {κ α : Type} [DecidableEq κ]
    (l : List (κ × α)) (k : κ) (v : α) (q : κ) :
    lookupFirst (setFirst l k v) q = if q = k then some v else lookupFirst l q := by
  induction l with
  | nil =>
    by_cases h : q = k
    · subst h
      simp [setFirst, lookupFirst]
    · have h2 : ¬ k = q := fun he => h he.symm
      simp [setFirst, lookupFirst, h, h2]
  | cons p rest ih =>
    by_cases hp : p.1 = k
    · by_cases hq : q = k
      · subst hq
        simp [setFirst, lookupFirst, hp]
      · have h2 : ¬ k = q := fun he => hq he.symm
        have h3 : ¬ p.1 = q := fun he => h2 (hp.symm.trans he)
        simp [setFirst, lookupFirst, hp, hq, h2, h3]
    · by_cases hq : q = k
      · subst hq
        simp [setFirst, lookupFirst, hp, ih]
      · simp [setFirst, lookupFirst, hp, ih, hq]

theorem lookupFirst_eq_none {κ α : Type} [DecidableEq κ]
    (l : List (κ × α)) (k : κ) (h : k ∉ l.map Prod.fst) :
    lookupFirst l k = none := by
  induction l with
  | nil => rfl
  | cons p rest ih =>
    simp only [List.map_cons, List.mem_cons, not_or] at h
    rw [lookupFirst, if_neg (fun he => h.1 he.symm)]
    exact ih h.2

theorem keys_setFirst {κ α : Type} [DecidableEq κ]
    (l : List (κ × α)) (k : κ) (v : α) :
    (setFirst l k v).map Prod.fst =
      if k ∈ l.map Prod.fst then l.map Prod.fst else l.map Prod.fst ++ [k] := by
  induction l with
  | nil => simp [setFirst]
  | cons p rest ih =>
    by_cases hp : p.1 = k
    · have hm : k ∈ (p :: rest).map Prod.fst := by
        simp only [List.map_cons, List.mem_cons]
        exact Or.inl hp.symm
      rw [setFirst, if_pos hp, if_pos hm]
      simp [hp]
    · rw [setFirst, if_neg hp]
      by_cases hm : k ∈ rest.map Prod.fst
      · have hm2 : k ∈ (p :: rest).map Prod.fst := by
          simp only [List.map_cons, List.mem_cons]
          exact Or.inr hm
        rw [if_pos hm2]
        simp [ih, hm]
      · have hm2 : k ∉ (p :: rest).map Prod.fst := by
          simp only [List.map_cons, List.mem_cons, not_or]
          exact ⟨fun he => hp he.symm, hm⟩
        rw [if_neg hm2]
        simp [ih, hm]

theorem nodupKeys_setFirst {κ α : Type} [DecidableEq κ]
    (l : List (κ × α)) (k : κ) (v : α) (h : (l.map Prod.fst).Nodup) :
    ((setFirst l k v).map Prod.fst).Nodup := by
  rw [keys_setFirst]
  by_cases hm : k ∈ l.map Prod.fst
  · rw [if_pos hm]
    exact h
  · rw [if_neg hm]
    refine List.Nodup.append h (List.nodup_singleton k) ?_
    intro a ha hak
    simp only [List.mem_singleton] at hak
    exact hm (hak ▸ ha)

theorem nodupKeys_dictUpdate {κ α : Type} [DecidableEq κ]
    (d o : List (κ × α)) (h : (d.map Prod.fst).Nodup) :
    ((dictUpdate d o).map Prod.fst).Nodup := by
  induction o generalizing d with
  | nil => exact h
  | cons p rest ih => exact ih (setFirst d p.1 p.2) (nodupKeys_setFirst d p.1 p.2 h)

theorem lookupFirst_removeFirst_self {κ α : Type} [DecidableEq κ]
    (l : List (κ × α)) (k : κ) (h : (l.map Prod.fst).Nodup) :
    lookupFirst (removeFirst l k) k = none := by
  induction l with
  | nil => rfl
  | cons p rest ih =>
    simp only [List.map_cons, List.nodup_cons] at h
    by_cases hp : p.1 = k
    · rw [removeFirst, if_pos hp]
      exact lookupFirst_eq_none rest k (hp ▸ h.1)
    · rw [removeFirst, if_neg hp, lookupFirst, if_neg hp]
      exact ih h.2

theorem lookupFirst_dictUpdate {κ α : Type} [DecidableEq κ]
    (d o : List (κ × α)) (k : κ) (ho : (o.map Prod.fst).Nodup) :
    lookupFirst (dictUpdate d o) k =
      match lookupFirst o k with
      | some v => some v
      | none => lookupFirst d k := by
  induction o generalizing d with
  | nil => simp [dictUpdate, lookupFirst]
  | cons p rest ih =>
    simp only [List.map_cons, List.nodup_cons] at ho
    have hstep : dictUpdate d (p :: rest) = dictUpdate (setFirst d p.1 p.2) rest := rfl
    rw [hstep, ih (setFirst d p.1 p.2) ho.2]
    by_cases hk : k = p.1
    · have hrest : lookupFirst rest k = none :=
        lookupFirst_eq_none rest k (by rw [hk]; exact ho.1)
      have hhead : lookupFirst (p :: rest) k = some p.2 := by
        rw [lookupFirst, if_pos hk.symm]
      rw [hrest, hhead, lookupFirst_setFirst, if_pos hk]
    · have hhead : lookupFirst (p :: rest) k = lookupFirst rest k := by
        rw [lookupFirst, if_neg (fun he => hk he.symm)]
      rw [hhead, lookupFirst_setFirst, if_neg hk]

/-! ### Python scalar values and f-string rendering -/

inductive PyVal where
  | vStr (s : String)
  | vInt (n : Int)
  | vBool (b : Bool)
  | vNone
deriving DecidableEq, Repr

/-- Rendering of a value inside a Python f-string. -/
def PyVal.toStr : PyVal → String
  | .vStr s => s
  | .vInt n => toString n
  | .vBool b => if b then "True" else "False"
  | .vNone => "None"

/-- Coercion of a config value to the int the retry loop compares against.
Configured retry counts are ints in the source; this totalizes the model. -/
def PyVal.toInt : PyVal → Int
  | .vInt n => n
  | .vBool b => if b then 1 else 0
  | _ => 0

abbrev PyDict := List (String × PyVal)

/-- Model of the Python substring test (the in operator on str). -/
def strContains (s pat : String) : Bool := decide (pat.data <:+: s.data)

/-- Model of Python str.lower as a character-wise map (the source only
lowercases driver error text whose cased characters are ASCII). -/
def strLower (s : String) : String := ⟨s.data.map Char.toLower⟩

/-- Model of Python str.upper as a character-wise map (applied to SQL text
whose cased characters are ASCII). -/
def strUpper (s : String) : String := ⟨s.data.map Char.toUpper⟩

/-- Model of Python str.strip: drop whitespace from both ends. -/
def strTrim (s : String) : String :=
  ⟨((s.data.dropWhile Char.isWhitespace).reverse.dropWhile Char.isWhitespace).reverse⟩

/-- Model of Python str.startswith. -/
def strStartsWith (s pre : String) : Bool := pre.data.isPrefixOf s.data

theorem strContains_of_eq_append (s a b c : String) (h : s = a ++ b ++ c) :
    strContains s b = true := by
  subst h
  simp only [strContains, decide_eq_true_eq]
  show b.data <:+: (a ++ b ++ c).data
  have hd : (a ++ b ++ c).data = a.data ++ b.data ++ c.data := rfl
  rw [hd]
  exact List.infix_append a.data b.data c.data

/-! ### The built-in connection defaults (lines 25-33).

Environment-variable reads are out of scope; each entry is modelled by its
built-in default value. -/

def DEFAULT_DB_CONFIG : PyDict :=
  [("host", .vStr "localhost"),
   ("port", .vInt 5432),
   ("user", .vStr "postgres"),
   ("password", .vStr "postgres"),
   ("database", .vStr "postgres"),
   ("connect_timeout", .vInt 10),
   ("connect_retry_count", .vInt 3)]

/-- Lines 36-59: the process-wide configuration built at startup.  Parsing of
command-line flags is out of scope; cmdConfig is the dict of the flags that
were actually supplied.  The source copies the defaults and overlays the
supplied flags. -/
def get_config_from_args (cmdConfig : PyDict) : PyDict :=
  dictUpdate DEFAULT_DB_CONFIG cmdConfig

/-! ### A heap of Python dict objects.

get_connection mutates dict objects in place (dict.update, dict.pop), so
the dicts it touches are modelled as objects in a small heap: an address
map plus a fresh-address counter.  dict.copy allocates a new object. -/

structure Heap where
  next : Nat
  data : List (Nat × PyDict)
deriving Repr

def Heap.get (h : Heap) (a : Nat) : PyDict := (lookupFirst h.data a).getD []

def Heap.set (h : Heap) (a : Nat) (d : PyDict) : Heap := ⟨h.next, setFirst h.data a d⟩

def Heap.alloc (h : Heap) (d : PyDict) : Nat × Heap :=
  (h.next, ⟨h.next + 1, (h.next, d) :: h.data⟩)

/-! ### The connection retry loop (lines 88-104).

The psycopg2 connect call is an oracle: given the parameter dict and the
0-based index of the attempt, it either yields a connection (identified by
a number) or fails with the text of the raised psycopg2.Error. -/

inductive ConnectOutcome where
  | ok (conn : Nat)
  | err (msg : String)
deriving DecidableEq, Repr

structure LoopOut where
  retryCount : Nat
  lastError : Option String
  conn : Option Nat
  attempts : Nat
deriving DecidableEq, Repr

/-- The while loop of lines 92-104, driven by fuel.  The loop runs while
retry_count < max_retries; the fuel is initialized to exactly the number
of remaining iterations, so the fuel-exhausted base case coincides with
the loop condition turning false.  attempts counts connect calls. -/
def connectLoopFuel (oracle : PyDict → Nat → ConnectOutcome) (connParams : PyDict)
    (maxRetries : Int) :
    Nat → Nat → Nat → Option String → LoopOut
  | 0, retryCount, attempts, lastError => ⟨retryCount, lastError, none, attempts⟩
  | fuel + 1, retryCount, attempts, lastError =>
    if (retryCount : Int) < maxRetries then
      match oracle connParams attempts with
      | .ok c => ⟨retryCount, lastError, some c, attempts + 1⟩
      | .err e =>
          connectLoopFuel oracle connParams maxRetries fuel (retryCount + 1)
            (attempts + 1) (some e)
    else ⟨retryCount, lastError, none, attempts⟩

def connectLoop (oracle : PyDict → Nat → ConnectOutcome) (connParams : PyDict)
    (maxRetries : Int) (retryCount attempts : Nat) (lastError : Option String) : LoopOut :=
  connectLoopFuel oracle connParams maxRetries (maxRetries - retryCount).toNat
    retryCount attempts lastError

/-- Python str() of the last_error variable: None prints as None. -/
def pyStrOpt : Option String → String
  | none => "None"
  | some s => s

/-- Convenience total read of a config key, rendering through PyVal.
The merged profile always contains the keys the source indexes (they are
present in the defaults), so the missing-key KeyError path never arises. -/
def cfgGet (d : PyDict) (k : String) (dflt : PyVal) : PyVal :=
  (lookupFirst d k).getD dflt

/-- The diagnosis appended to the connection error (lines 108-114):
an if/elif chain of case-insensitive substring checks on the raw error. -/
def connDiagSuffix (lastError : Option String) (dbConfig : PyDict) : String :=
  let le := strLower (pyStrOpt lastError)
  if strContains le "connection refused" then
    "\n无法连接到PostgreSQL服务器，请检查主机 " ++ (cfgGet dbConfig "host" .vNone).toStr
      ++ " 和端口 " ++ (cfgGet dbConfig "port" .vNone).toStr ++ " 是否正确"
      ++ "\n连接超时时间为 " ++ (cfgGet dbConfig "connect_timeout" (.vInt 10)).toStr ++ " 秒"
  else if strContains le "password authentication failed" then
    "\n认证失败，请检查用户名 " ++ (cfgGet dbConfig "user" .vNone).toStr ++ " 和密码是否正确"
  else if strContains le "does not exist" && strContains le "database" then
    "\n未知数据库 " ++ (cfgGet dbConfig "database" .vNone).toStr ++ "，请确认数据库名称是否正确"
  else ""

/-- The full message of the Exception raised at line 115. -/
def connErrorMessage (retryCount : Nat) (lastError : Option String)
    (dbConfig : PyDict) : String :=
  "数据库连接错误(重试 " ++ toString retryCount ++ " 次后): " ++ pyStrOpt lastError
    ++ connDiagSuffix lastError dbConfig

/-- Lines 73-86: resolve which dict object the local name db_config points
to after the merge step.  Returns the address of that (always freshly
copied) object and the heap after the merge. -/
def mergeStep (h0 : Heap) (defaultAddr : Nat) (globalAddr callAddr : Option Nat) :
    Nat × Heap :=
  match callAddr with
  | none =>
    match globalAddr with
    | some g => h0.alloc (h0.get g)
    | none => h0.alloc (h0.get defaultAddr)
  | some c =>
    let base := match globalAddr with
      | some g => h0.get g
      | none => h0.get defaultAddr
    let p := h0.alloc base
    let h2 := p.2.set p.1 (dictUpdate (p.2.get p.1) (p.2.get c))
    (p.1, h2)

structure RunOut where
  heap : Heap
  localAddr : Nat
  mergedProfile : PyDict
  maxRetries : Int
  connParams : PyDict
  loop : LoopOut
  result : Except String Nat

/-- Lines 106-115 condensed: the value the function ends with once the
loop is over (either the connection, or the raised Exception message). -/
def loopResult (lp : LoopOut) (dbConfig : PyDict) : Except String Nat :=
  match lp.conn with
  | some conn => .ok conn
  | none => .error (connErrorMessage lp.retryCount lp.lastError dbConfig)

/-- The body of get_connection (lines 64-115) over an explicit heap of dict
objects.  defaultAddr holds DEFAULT_DB_CONFIG, globalAddr the process-wide
GLOBAL_DB_CONFIG if set, callAddr the caller-supplied db_config if any. -/
def get_connection_run (h0 : Heap) (defaultAddr : Nat) (globalAddr callAddr : Option Nat)
    (oracle : PyDict → Nat → ConnectOutcome) : RunOut :=
  let p := mergeStep h0 defaultAddr globalAddr callAddr
  let merged := p.2.get p.1
  let popped := popFirst merged "connect_retry_count"
  let maxRetries := (popped.1.getD (.vInt 3)).toInt
  let h2 := p.2.set p.1 popped.2
  let connParams := h2.get p.1
  let lp := connectLoop oracle connParams maxRetries 0 0 none
  { heap := h2
    localAddr := p.1
    mergedProfile := merged
    maxRetries := maxRetries
    connParams := connParams
    loop := lp
    result := loopResult lp (h2.get p.1) }

/-- get_connection on a fresh heap: address 0 holds the built-in defaults,
address 1 the process-wide config (if set), address 2 the per-call
db_config (if supplied). -/
def get_connection (oracle : PyDict → Nat → ConnectOutcome)
    (globalConfig dbConfig : Option PyDict) : RunOut :=
  let h0 : Heap := ⟨3, [(0, DEFAULT_DB_CONFIG), (1, globalConfig.getD []), (2, dbConfig.getD [])]⟩
  get_connection_run h0 0 (globalConfig.map fun _ => 1) (dbConfig.map fun _ => 2) oracle

theorem gc_loop_eq (oracle : PyDict → Nat → ConnectOutcome) (g c : Option PyDict) :
    (get_connection oracle g c).loop =
      connectLoop oracle (get_connection oracle g c).connParams
        (get_connection oracle g c).maxRetries 0 0 none := rfl

theorem gc_result_eq (oracle : PyDict → Nat → ConnectOutcome) (g c : Option PyDict) :
    (get_connection oracle g c).result =
      loopResult (get_connection oracle g c).loop (get_connection oracle g c).connParams := rfl

/-! ### The operation handlers (execute_query, insert_data, update_data).

The driver underneath a handler is an oracle value: the outcome of
get_connection, of conn.cursor(), of the statement execution and of
conn.commit(), plus the rows and rowcount the cursor would report.
Handlers return a structured dict, modelled by OpResult; a trace records
whether the call committed, whether a connection was opened and closed,
and which statements (with bound parameters) were submitted. -/

inductive DriverResp where
  | ok
  | dbErr (msg : String)
  | exnErr (msg : String)
deriving DecidableEq, Repr

structure Driver where
  connectResult : Except String Nat
  cursorResult : DriverResp
  executeResult : DriverResp
  commitResult : DriverResp
  fetchallRows : List PyDict
  rowcount : Int
deriving Repr

inductive OpResult where
  | queryRows (rows : List PyDict) (rowCount : Nat)
  | affected (n : Int)
  | insertOk (n : Nat) (message : String)
  | updateOk (n : Int) (message : String)
  | errMsg (msg : String)
  | errWithQuery (msg : String) (query : String)
deriving DecidableEq, Repr

inductive PyOutcome where
  | ret (r : OpResult)
  | exn (msg : String)
deriving DecidableEq, Repr

structure OpTrace where
  outcome : PyOutcome
  committed : Bool
  connOpened : Bool
  connClosed : Bool
  executed : List (String × List PyVal)
  batchExecuted : List (String × List (List PyVal))
deriving DecidableEq, Repr

/-- Lines 141-142: the read-statement test.  Python strip().upper() with a
startswith check on each of the four read keywords. -/
def isReadQuery (query : String) : Bool :=
  let q := strUpper (strTrim query)
  strStartsWith q "SELECT" || strStartsWith q "SHOW" || strStartsWith q "DESCRIBE"
    || strStartsWith q "EXPLAIN"

/-- Lines 159-165: the classified error message of execute_query. -/
def executeQueryErrMsg (e : String) : String :=
  let le := strLower e
  let base := "执行查询失败: " ++ e
  if strContains le "column" && strContains le "does not exist" then
    base ++ "\n原因：查询中包含未知的列名"
  else if strContains le "relation" && strContains le "does not exist" then
    base ++ "\n原因：查询的表不存在"
  else if strContains le "syntax error" then
    base ++ "\n原因：SQL语法错误"
  else base

/-- Lines 452-458: the classified error message of insert_data. -/
def insertDataErrMsg (e schema_name table_name : String) : String :=
  let le := strLower e
  let base := "插入数据失败: " ++ e
  if strContains le "does not exist" then
    base ++ "\n原因：表 " ++ schema_name ++ "." ++ table_name ++ " 不存在"
  else if strContains le "violates" && strContains le "constraint" then
    base ++ "\n原因：违反表约束条件"
  else if strContains le "column" && strContains le "does not exist" then
    base ++ "\n原因：表中不存在指定的列"
  else base

/-- Lines 524-530: the classified error message of update_data.  The order
of the branches is exactly the source order (the column branch is shadowed
by the first one; this mirrors the code). -/
def updateDataErrMsg (e schema_name table_name : String) : String :=
  let le := strLower e
  let base := "更新数据失败: " ++ e
  if strContains le "does not exist" then
    base ++ "\n原因：表 " ++ schema_name ++ "." ++ table_name ++ " 不存在"
  else if strContains le "column" && strContains le "does not exist" then
    base ++ "\n原因：尝试更新不存在的列"
  else if strContains le "syntax error" then
    base ++ "\n原因：SQL语法错误，请检查条件语句"
  else base

/-- Lines 117-172: execute_query.  If conn.cursor() raises, the finally
block (lines 169-172) sees conn bound but cursor unbound, so
cursor.close() raises UnboundLocalError, which escapes the handler; this
is modelled by the exn outcome with the connection left unclosed.
get_connection raises a plain Exception, caught by the generic except
branch of line 167. -/
def execute_query (query : String) (params : Option (List PyVal)) (driver : Driver) :
    OpTrace :=
  if query = "" then
    ⟨.ret (.errMsg "查询语句不能为空"), false, false, false, [], []⟩
  else
    let ps := params.getD []
    match driver.connectResult with
    | .error e =>
        ⟨.ret (.errWithQuery ("执行过程中发生未知错误: " ++ e) query), false, false, false, [], []⟩
    | .ok _ =>
      match driver.cursorResult with
      | .dbErr _ => ⟨.exn "UnboundLocalError: cursor", false, true, false, [], []⟩
      | .exnErr _ => ⟨.exn "UnboundLocalError: cursor", false, true, false, [], []⟩
      | .ok =>
        match driver.executeResult with
        | .dbErr e =>
            ⟨.ret (.errWithQuery (executeQueryErrMsg e) query), false, true, true,
              [(query, ps)], []⟩
        | .exnErr e =>
            ⟨.ret (.errWithQuery ("执行过程中发生未知错误: " ++ e) query), false, true, true,
              [(query, ps)], []⟩
        | .ok =>
          if isReadQuery query then
            ⟨.ret (.queryRows driver.fetchallRows driver.fetchallRows.length), false, true,
              true, [(query, ps)], []⟩
          else
            match driver.commitResult with
            | .ok =>
                ⟨.ret (.affected driver.rowcount), true, true, true, [(query, ps)], []⟩
            | .dbErr e =>
                ⟨.ret (.errWithQuery (executeQueryErrMsg e) query), false, true, true,
                  [(query, ps)], []⟩
            | .exnErr e =>
                ⟨.ret (.errWithQuery ("执行过程中发生未知错误: " ++ e) query), false, true, true,
                  [(query, ps)], []⟩

/-- Lines 430-434: the INSERT statement built from the first record's keys. -/
def insertSql (schema_name table_name : String) (columns : List String) : String :=
  "INSERT INTO " ++ schema_name ++ "." ++ table_name ++ " ("
    ++ String.intercalate ", " columns ++ ") VALUES ("
    ++ String.intercalate ", " (List.replicate columns.length "%s") ++ ")"

/-- Lines 397-465: insert_data.  data is a single record or a list of
records; under this typed embedding the all-records-are-dicts check of
line 420 always passes.  The batched executemany call is recorded in
batchExecuted.  On success affected_rows is len(data), not the cursor
rowcount. -/
def insert_data (table_name : String) (data : PyDict ⊕ List PyDict)
    (schema_name : String) (driver : Driver) : OpTrace :=
  if table_name = "" then
    ⟨.ret (.errMsg "表名不能为空"), false, false, false, [], []⟩
  else
    let isEmptyData : Bool := match data with
      | .inl d => decide (d = ([] : PyDict))
      | .inr l => decide (l = ([] : List PyDict))
    if isEmptyData then
      ⟨.ret (.errMsg "插入数据不能为空"), false, false, false, [], []⟩
    else
      let dataList := match data with
        | .inl d => [d]
        | .inr l => l
      match driver.connectResult with
      | .error e =>
          ⟨.ret (.errMsg ("插入数据时发生未知错误: " ++ e)), false, false, false, [], []⟩
      | .ok _ =>
        match driver.cursorResult with
        | .dbErr _ => ⟨.exn "UnboundLocalError: cursor", false, true, false, [], []⟩
        | .exnErr _ => ⟨.exn "UnboundLocalError: cursor", false, true, false, [], []⟩
        | .ok =>
          let columns := (dataList.headD []).map Prod.fst
          let sql := insertSql schema_name table_name columns
          let values := dataList.map fun item =>
            columns.map fun col => (lookupFirst item col).getD .vNone
          match driver.executeResult with
          | .dbErr e =>
              ⟨.ret (.errMsg (insertDataErrMsg e schema_name table_name)), false, true, true,
                [], [(sql, values)]⟩
          | .exnErr e =>
              ⟨.ret (.errMsg ("插入数据时发生未知错误: " ++ e)), false, true, true,
                [], [(sql, values)]⟩
          | .ok =>
            match driver.commitResult with
            | .ok =>
                ⟨.ret (.insertOk dataList.length
                    ("成功向表 " ++ schema_name ++ "." ++ table_name ++ " 插入 "
                      ++ toString dataList.length ++ " 条数据")),
                  true, true, true, [], [(sql, values)]⟩
            | .dbErr e =>
                ⟨.ret (.errMsg (insertDataErrMsg e schema_name table_name)), false, true,
                  true, [], [(sql, values)]⟩
            | .exnErr e =>
                ⟨.ret (.errMsg ("插入数据时发生未知错误: " ++ e)), false, true, true,
                  [], [(sql, values)]⟩

/-- Lines 467-537: update_data.  The SET clause is built from the data
dict in iteration order; bound parameters are the SET values followed by
the caller-supplied condition params (line 509-511: all_params starts as
set_values and params, when truthy, is appended; an empty params list is
falsy and appends nothing, which coincides with appending the empty
list). -/
def update_data (table_name : String) (data : PyDict) (condition : String)
    (params : Option (List PyVal)) (schema_name : String) (driver : Driver) : OpTrace :=
  if table_name = "" then
    ⟨.ret (.errMsg "表名不能为空"), false, false, false, [], []⟩
  else if data = ([] : PyDict) then
    ⟨.ret (.errMsg "更新数据不能为空且必须是字典格式"), false, false, false, [], []⟩
  else if condition = "" then
    ⟨.ret (.errMsg "更新条件不能为空，为了安全起见，必须提供WHERE条件"), false, false, false, [], []⟩
  else
    match driver.connectResult with
    | .error e =>
        ⟨.ret (.errMsg ("更新数据时发生未知错误: " ++ e)), false, false, false, [], []⟩
    | .ok _ =>
      match driver.cursorResult with
      | .dbErr _ => ⟨.exn "UnboundLocalError: cursor", false, true, false, [], []⟩
      | .exnErr _ => ⟨.exn "UnboundLocalError: cursor", false, true, false, [], []⟩
      | .ok =>
        let set_clause := String.intercalate ", " (data.map fun p => p.1 ++ " = %s")
        let sql := "UPDATE " ++ schema_name ++ "." ++ table_name ++ " SET " ++ set_clause
          ++ " WHERE " ++ condition
        let all_params := (data.map Prod.snd) ++ params.getD []
        match driver.executeResult with
        | .dbErr e =>
            ⟨.ret (.errMsg (updateDataErrMsg e schema_name table_name)), false, true, true,
              [(sql, all_params)], []⟩
        | .exnErr e =>
            ⟨.ret (.errMsg ("更新数据时发生未知错误: " ++ e)), false, true, true,
              [(sql, all_params)], []⟩
        | .ok =>
          match driver.commitResult with
          | .ok =>
              ⟨.ret (.updateOk driver.rowcount
                  ("成功更新表 " ++ schema_name ++ "." ++ table_name ++ " 中的 "
                    ++ toString driver.rowcount ++ " 条数据")),
                true, true, true, [(sql, all_params)], []⟩
          | .dbErr e =>
              ⟨.ret (.errMsg (updateDataErrMsg e schema_name table_name)), false, true, true,
                [(sql, all_params)], []⟩
          | .exnErr e =>
              ⟨.ret (.errMsg ("更新数据时发生未知错误: " ++ e)), false, true, true,
                [(sql, all_params)], []⟩

/-! ### Lemmas about the retry loop -/

theorem connectLoopFuel_allFail (oracle : PyDict → Nat → ConnectOutcome) (cp : PyDict)
    (m : Nat → String) (hAll : ∀ k, oracle cp k = .err (m k)) (maxRetries : Int) :
    ∀ (fuel retryCount : Nat) (lastError : Option String),
      (maxRetries - (retryCount : Int)).toNat = fuel →
      (retryCount : Int) < maxRetries →
      connectLoopFuel oracle cp maxRetries fuel retryCount retryCount lastError =
        ⟨maxRetries.toNat, some (m (maxRetries.toNat - 1)), none, maxRetries.toNat⟩ := by
  intro fuel
  induction fuel with
  | zero =>
    intro retryCount lastError hf hlt
    exfalso
    omega
  | succ fuel ih =>
    intro retryCount lastError hf hlt
    rw [connectLoopFuel, if_pos hlt, hAll retryCount]
    show connectLoopFuel oracle cp maxRetries fuel (retryCount + 1) (retryCount + 1)
        (some (m retryCount)) = _
    by_cases h2 : ((retryCount + 1 : Nat) : Int) < maxRetries
    · exact ih (retryCount + 1) (some (m retryCount)) (by push_cast at *; omega) h2
    · have hfuel0 : fuel = 0 := by push_cast at *; omega
      have hmax : maxRetries.toNat = retryCount + 1 := by push_cast at *; omega
      subst hfuel0
      rw [connectLoopFuel, hmax]
      simp

theorem connectLoop_allFail (oracle : PyDict → Nat → ConnectOutcome) (cp : PyDict)
    (m : Nat → String) (hAll : ∀ k, oracle cp k = .err (m k)) (maxRetries : Int)
    (h1 : 1 ≤ maxRetries) :
    connectLoop oracle cp maxRetries 0 0 none =
      ⟨maxRetries.toNat, some (m (maxRetries.toNat - 1)), none, maxRetries.toNat⟩ := by
  rw [connectLoop]
  exact connectLoopFuel_allFail oracle cp m hAll maxRetries _ 0 none rfl (by push_cast; omega)

/-- C1: with connect_retry_count resolved to N with N at least 1 and every
connect attempt failing, get_connection makes exactly N connect attempts and
raises an error whose message reports the attempt count N and the text of
the last raw error. -/
theorem c1_retry_exhaustion (oracle : PyDict → Nat → ConnectOutcome)
    (g c : Option PyDict) (m : Nat → String) (N : Int)
    (hAll : ∀ p k, oracle p k = .err (m k))
    (hN : (get_connection oracle g c).maxRetries = N)
    (h1 : 1 ≤ N) :
    (get_connection oracle g c).loop.attempts = N.toNat ∧
    (get_connection oracle g c).result =
      .error (connErrorMessage N.toNat (some (m (N.toNat - 1)))
        (get_connection oracle g c).connParams) ∧
    strContains (connErrorMessage N.toNat (some (m (N.toNat - 1)))
        (get_connection oracle g c).connParams) (toString N.toNat) = true ∧
    strContains (connErrorMessage N.toNat (some (m (N.toNat - 1)))
        (get_connection oracle g c).connParams) (m (N.toNat - 1)) = true := by
  have hloop : (get_connection oracle g c).loop =
      ⟨N.toNat, some (m (N.toNat - 1)), none, N.toNat⟩ := by
    rw [gc_loop_eq, hN]
    exact connectLoop_allFail oracle _ m (fun k => hAll _ k) N h1
  refine ⟨by rw [hloop], ?_, ?_, ?_⟩
  · rw [gc_result_eq, hloop]
    rfl
  · apply strContains_of_eq_append _ "数据库连接错误(重试 " (toString N.toNat)
      (" 次后): " ++ m (N.toNat - 1)
        ++ connDiagSuffix (some (m (N.toNat - 1))) (get_connection oracle g c).connParams)
    rw [connErrorMessage]
    simp [pyStrOpt, String.append_assoc]
  · apply strContains_of_eq_append _ ("数据库连接错误(重试 " ++ toString N.toNat ++ " 次后): ")
      (m (N.toNat - 1))
      (connDiagSuffix (some (m (N.toNat - 1))) (get_connection oracle g c).connParams)
    rw [connErrorMessage]
    simp [pyStrOpt, String.append_assoc]

def c1m : Nat → String := fun k => "connect failure " ++ toString k

def c1oracle : PyDict → Nat → ConnectOutcome := fun _ k => .err (c1m k)

def c1cfg : PyDict := [("connect_retry_count", .vInt 2)]

theorem c1_retry_exhaustion_witness :
    (get_connection c1oracle none (some c1cfg)).loop.attempts = 2 ∧
    (get_connection c1oracle none (some c1cfg)).result =
      .error (connErrorMessage 2 (some (c1m 1))
        (get_connection c1oracle none (some c1cfg)).connParams) :=
  let h := c1_retry_exhaustion c1oracle none (some c1cfg) c1m 2
    (fun _ _ => rfl) rfl (by norm_num)
  ⟨h.1, h.2.1⟩

/-- Evaluation of connErrorMessage at zero attempts: str of Python None is
"None", whose lowercase form matches none of the diagnosis triggers, so no
suffix is appended regardless of the profile. -/
theorem connErrorMessage_zero_none (cfg : PyDict) :
    connErrorMessage 0 none cfg = "数据库连接错误(重试 0 次后): None" := by
  have h1 : strContains (strLower (pyStrOpt none)) "connection refused" = false := by decide
  have h2 : strContains (strLower (pyStrOpt none)) "password authentication failed" = false := by
    decide
  have h3 : strContains (strLower (pyStrOpt none)) "does not exist" = false := by decide
  rw [connErrorMessage, connDiagSuffix]
  simp [h1, h2, h3]
  rfl

/-- C10: when the resolved connect_retry_count is zero or negative,
get_connection makes no connect attempt and raises an error message
reporting zero retries and a last error of None. -/
theorem c10_nonpositive_retries (oracle : PyDict → Nat → ConnectOutcome)
    (g c : Option PyDict) (N : Int)
    (hN : (get_connection oracle g c).maxRetries = N)
    (h0 : N ≤ 0) :
    (get_connection oracle g c).loop.attempts = 0 ∧
    (get_connection oracle g c).result = .error "数据库连接错误(重试 0 次后): None" := by
  have hloop : (get_connection oracle g c).loop = ⟨0, none, none, 0⟩ := by
    rw [gc_loop_eq, hN, connectLoop]
    have hf : (N - ((0 : Nat) : Int)).toNat = 0 := by push_cast; omega
    rw [hf]
    rfl
  refine ⟨by rw [hloop], ?_⟩
  rw [gc_result_eq, hloop]
  show Except.error (connErrorMessage 0 none (get_connection oracle g c).connParams) = _
  rw [connErrorMessage_zero_none]

def c10cfg : PyDict := [("connect_retry_count", .vInt 0)]

theorem c10_nonpositive_retries_witness :
    (get_connection c1oracle none (some c10cfg)).loop.attempts = 0 ∧
    (get_connection c1oracle none (some c10cfg)).result =
      .error "数据库连接错误(重试 0 次后): None" :=
  c10_nonpositive_retries c1oracle none (some c10cfg) 0 rfl (by norm_num)

/-! ### C5: the authentication-failure diagnosis trigger.

The spec claims the username hint is appended whenever the raw error text
contains both "password" and "authentication failed"; the code (line 111)
tests for the single contiguous substring "password authentication
failed". -/

def c5raw : String := "authentication failed for user, wrong password"

def c5oracle : PyDict → Nat → ConnectOutcome := fun _ _ => .err c5raw

def c5cfg : PyDict := [("connect_retry_count", .vInt 1)]

/-- C5 counterexample: a raw error containing both "password" and
"authentication failed" (and no "connection refused") for which
get_connection raises the bare message with no username hint appended. -/
theorem c5_counterexample :
    strContains (strLower c5raw) "password" = true ∧
    strContains (strLower c5raw) "authentication failed" = true ∧
    strContains (strLower c5raw) "connection refused" = false ∧
    (get_connection c5oracle none (some c5cfg)).result =
      .error ("数据库连接错误(重试 1 次后): " ++ c5raw) ∧
    strContains ("数据库连接错误(重试 1 次后): " ++ c5raw) "请检查用户名" = false := by
  refine ⟨by decide, by decide, by decide, ?_, by decide⟩
  rfl

/-- C5 amended: after exhausting connection retries, get_connection appends
the username hint exactly when the raw error text case-insensitively
contains the contiguous substring "password authentication failed" (and no
higher-priority "connection refused" match applies). -/
theorem c5_amended_contiguous (oracle : PyDict → Nat → ConnectOutcome)
    (g c : Option PyDict) (m : Nat → String) (N : Int)
    (hAll : ∀ p k, oracle p k = .err (m k))
    (hN : (get_connection oracle g c).maxRetries = N)
    (h1 : 1 ≤ N)
    (hnoref : strContains (strLower (m (N.toNat - 1))) "connection refused" = false)
    (hauth : strContains (strLower (m (N.toNat - 1))) "password authentication failed" = true) :
    (get_connection oracle g c).result =
      .error ("数据库连接错误(重试 " ++ toString N.toNat ++ " 次后): " ++ m (N.toNat - 1)
        ++ ("\n认证失败，请检查用户名 "
            ++ (cfgGet (get_connection oracle g c).connParams "user" .vNone).toStr
            ++ " 和密码是否正确")) := by
  have hloop : (get_connection oracle g c).loop =
      ⟨N.toNat, some (m (N.toNat - 1)), none, N.toNat⟩ := by
    rw [gc_loop_eq, hN]
    exact connectLoop_allFail oracle _ m (fun k => hAll _ k) N h1
  rw [gc_result_eq, hloop]
  show Except.error (connErrorMessage N.toNat (some (m (N.toNat - 1)))
    (get_connection oracle g c).connParams) = _
  rw [connErrorMessage, connDiagSuffix]
  simp only [pyStrOpt, hnoref, hauth]
  simp

def c5wm : Nat → String := fun _ => "FATAL: password authentication failed for user bob"

def c5wOracle : PyDict → Nat → ConnectOutcome := fun _ k => .err (c5wm k)

theorem c5_amended_contiguous_witness :
    (get_connection c5wOracle none (some c5cfg)).result =
      .error ("数据库连接错误(重试 " ++ toString (1 : Int).toNat ++ " 次后): "
        ++ c5wm ((1 : Int).toNat - 1)
        ++ ("\n认证失败，请检查用户名 "
            ++ (cfgGet (get_connection c5wOracle none (some c5cfg)).connParams "user" .vNone).toStr
            ++ " 和密码是否正确")) :=
  c5_amended_contiguous c5wOracle none (some c5cfg) c5wm 1
    (fun _ _ => rfl) rfl (by norm_num) (by decide) (by decide)

/-! ### C2 and C9: configuration precedence and the frame of the merge -/

/-- C2: the profile get_connection resolves takes each key present in the
per-call db_config from it; keys absent there fall back to the process-wide
override (the command-line dict overlaid on the defaults), and keys absent
from both fall back to the built-in defaults. -/
theorem c2_per_call_precedence (cmd call : PyDict)
    (oracle : PyDict → Nat → ConnectOutcome) (k : String)
    (hcmd : (cmd.map Prod.fst).Nodup) (hcall : (call.map Prod.fst).Nodup) :
    lookupFirst
      (get_connection oracle (some (get_config_from_args cmd)) (some call)).mergedProfile k =
      match lookupFirst call k with
      | some v => some v
      | none =>
        match lookupFirst cmd k with
        | some v => some v
        | none => lookupFirst DEFAULT_DB_CONFIG k := by
  have hm : (get_connection oracle (some (get_config_from_args cmd)) (some call)).mergedProfile
      = dictUpdate (get_config_from_args cmd) call := rfl
  rw [hm, lookupFirst_dictUpdate _ _ _ hcall, get_config_from_args,
    lookupFirst_dictUpdate _ _ _ hcmd]
  cases lookupFirst call k with
  | some v => rfl
  | none =>
    cases lookupFirst cmd k with
    | some v => rfl
    | none => rfl

def c2cmd : PyDict := [("host", .vStr "cli-host"), ("port", .vInt 5433)]

def c2call : PyDict := [("host", .vStr "call-host")]

theorem c2_per_call_precedence_witness :
    lookupFirst
      (get_connection c1oracle (some (get_config_from_args c2cmd)) (some c2call)).mergedProfile
      "host" =
      match lookupFirst c2call "host" with
      | some v => some v
      | none =>
        match lookupFirst c2cmd "host" with
        | some v => some v
        | none => lookupFirst DEFAULT_DB_CONFIG "host" :=
  c2_per_call_precedence c2cmd c2call c1oracle "host" (by decide) (by decide)

/-- C9: get_connection pops connect_retry_count from the merged copy, so the
parameter dict handed to the connect call never contains that key, and the
dict objects holding the caller-supplied db_config (address 2), the
process-wide config (address 1) and the built-in defaults (address 0) are
left exactly as they were. -/
theorem c9_retry_key_not_forwarded (oracle : PyDict → Nat → ConnectOutcome)
    (g c : PyDict) (hg : (g.map Prod.fst).Nodup) :
    lookupFirst (get_connection oracle (some g) (some c)).connParams "connect_retry_count"
      = none ∧
    (get_connection oracle (some g) (some c)).heap.get 0 = DEFAULT_DB_CONFIG ∧
    (get_connection oracle (some g) (some c)).heap.get 1 = g ∧
    (get_connection oracle (some g) (some c)).heap.get 2 = c := by
  refine ⟨?_, rfl, rfl, rfl⟩
  have hcp : (get_connection oracle (some g) (some c)).connParams
      = removeFirst (dictUpdate g c) "connect_retry_count" := rfl
  rw [hcp]
  exact lookupFirst_removeFirst_self _ _ (nodupKeys_dictUpdate g c hg)

def c9g : PyDict := dictUpdate DEFAULT_DB_CONFIG [("connect_retry_count", .vInt 5)]

def c9c : PyDict := [("host", .vStr "call-host")]

theorem c9_retry_key_not_forwarded_witness :
    lookupFirst (get_connection c1oracle (some c9g) (some c9c)).connParams
      "connect_retry_count" = none ∧
    (get_connection c1oracle (some c9g) (some c9c)).heap.get 0 = DEFAULT_DB_CONFIG ∧
    (get_connection c1oracle (some c9g) (some c9c)).heap.get 1 = c9g ∧
    (get_connection c1oracle (some c9g) (some c9c)).heap.get 2 = c9c :=
  c9_retry_key_not_forwarded c1oracle c9g c9c (by decide)

/-! ### C3, C4, C6, C7, C8: the operation handlers -/

/-- C3: on a successful round trip, execute_query returns the row-set
result without committing exactly when the trimmed statement
case-insensitively starts with SELECT, SHOW, DESCRIBE or EXPLAIN, and for
every other statement commits and returns the cursor rowcount. -/
theorem c3_read_write_classification (query : String) (params : Option (List PyVal))
    (driver : Driver) (connId : Nat)
    (hq : query ≠ "")
    (hconn : driver.connectResult = .ok connId)
    (hcur : driver.cursorResult = .ok)
    (hexec : driver.executeResult = .ok)
    (hcommit : driver.commitResult = .ok) :
    (((execute_query query params driver).outcome =
        .ret (.queryRows driver.fetchallRows driver.fetchallRows.length) ∧
      (execute_query query params driver).committed = false) ↔ isReadQuery query = true) ∧
    (isReadQuery query = false →
      (execute_query query params driver).outcome = .ret (.affected driver.rowcount) ∧
      (execute_query query params driver).committed = true) := by
  by_cases hr : isReadQuery query
  · simp [execute_query, hq, hconn, hcur, hexec, hcommit, hr]
  · simp only [Bool.not_eq_true] at hr
    simp [execute_query, hq, hconn, hcur, hexec, hcommit, hr]

def okDriver : Driver :=
  { connectResult := .ok 1
    cursorResult := .ok
    executeResult := .ok
    commitResult := .ok
    fetchallRows := [[("c", .vInt 1)]]
    rowcount := 1 }

theorem c3_read_write_classification_witness :
    (((execute_query "SELECT 1" none okDriver).outcome =
        .ret (.queryRows okDriver.fetchallRows okDriver.fetchallRows.length) ∧
      (execute_query "SELECT 1" none okDriver).committed = false) ↔
        isReadQuery "SELECT 1" = true) ∧
    (isReadQuery "SELECT 1" = false →
      (execute_query "SELECT 1" none okDriver).outcome = .ret (.affected okDriver.rowcount) ∧
      (execute_query "SELECT 1" none okDriver).committed = true) :=
  c3_read_write_classification "SELECT 1" none okDriver 1 (by decide) rfl rfl rfl rfl

def c4driver : Driver :=
  { connectResult := .ok 1
    cursorResult := .dbErr "server closed the connection unexpectedly"
    executeResult := .ok
    commitResult := .ok
    fetchallRows := []
    rowcount := 0 }

/-- C4 fails on the code: when a connection is opened and conn.cursor()
then raises a driver error, the finally block of execute_query (and
likewise of update_data) references the unbound local cursor, so an
UnboundLocalError escapes the handler instead of a structured result
dictionary, and the opened connection is never closed. -/
theorem c4_cleanup_bug :
    (execute_query "SELECT 1" none c4driver).connOpened = true ∧
    (execute_query "SELECT 1" none c4driver).connClosed = false ∧
    (execute_query "SELECT 1" none c4driver).outcome = .exn "UnboundLocalError: cursor" ∧
    (update_data "t" [("a", .vInt 1)] "id = 1" none "public" c4driver).connOpened = true ∧
    (update_data "t" [("a", .vInt 1)] "id = 1" none "public" c4driver).connClosed = false ∧
    (update_data "t" [("a", .vInt 1)] "id = 1" none "public" c4driver).outcome =
      .exn "UnboundLocalError: cursor" :=
  ⟨rfl, rfl, rfl, rfl, rfl, rfl⟩

/-- C6: update_data called with an empty condition returns a validation
error immediately: no connection is opened, no statement is built or
executed, nothing is committed. -/
theorem c6_empty_condition_rejected (table_name : String) (data : PyDict)
    (params : Option (List PyVal)) (schema_name : String) (driver : Driver) :
    (update_data table_name data "" params schema_name driver).connOpened = false ∧
    (update_data table_name data "" params schema_name driver).executed = [] ∧
    (update_data table_name data "" params schema_name driver).committed = false ∧
    ((update_data table_name data "" params schema_name driver).outcome =
        .ret (.errMsg "表名不能为空") ∨
     (update_data table_name data "" params schema_name driver).outcome =
        .ret (.errMsg "更新数据不能为空且必须是字典格式") ∨
     (update_data table_name data "" params schema_name driver).outcome =
        .ret (.errMsg "更新条件不能为空，为了安全起见，必须提供WHERE条件")) := by
  by_cases ht : table_name = ""
  · simp [update_data, ht]
  · by_cases hd : data = ([] : PyDict)
    · simp [update_data, ht, hd]
    · simp [update_data, ht, hd]

/-- C7: insert_data normalizes a single record to a one-element batch; for
a record list it takes the column list from the first record's keys, fills
missing keys of later records with null, submits one batched insert, and
on success reports affected_rows equal to the number of records. -/
theorem c7_insert_batch (table_name schema_name : String) (driver : Driver) (connId : Nat)
    (d : PyDict) (rs : List PyDict)
    (ht : table_name ≠ "") (hd : d ≠ ([] : PyDict)) (hrs : rs ≠ ([] : List PyDict))
    (hconn : driver.connectResult = .ok connId)
    (hcur : driver.cursorResult = .ok)
    (hexec : driver.executeResult = .ok)
    (hcommit : driver.commitResult = .ok) :
    insert_data table_name (.inl d) schema_name driver =
      insert_data table_name (.inr [d]) schema_name driver ∧
    (insert_data table_name (.inr rs) schema_name driver).outcome =
      .ret (.insertOk rs.length ("成功向表 " ++ schema_name ++ "." ++ table_name ++ " 插入 "
        ++ toString rs.length ++ " 条数据")) ∧
    (insert_data table_name (.inr rs) schema_name driver).batchExecuted =
      [(insertSql schema_name table_name ((rs.headD []).map Prod.fst),
        rs.map fun item => ((rs.headD []).map Prod.fst).map
          fun col => (lookupFirst item col).getD .vNone)] := by
  refine ⟨?_, ?_, ?_⟩
  · simp [insert_data, ht, hd]
  · simp [insert_data, ht, hrs, hconn, hcur, hexec, hcommit]
  · simp [insert_data, ht, hrs, hconn, hcur, hexec, hcommit]

def c7rows : List PyDict := [[("a", .vInt 1), ("b", .vStr "x")], [("a", .vInt 2)]]

theorem c7_insert_batch_witness :
    insert_data "t" (.inl [("a", .vInt 1)]) "public" okDriver =
      insert_data "t" (.inr [[("a", .vInt 1)]]) "public" okDriver ∧
    (insert_data "t" (.inr c7rows) "public" okDriver).outcome =
      .ret (.insertOk c7rows.length ("成功向表 " ++ "public" ++ "." ++ "t" ++ " 插入 "
        ++ toString c7rows.length ++ " 条数据")) ∧
    (insert_data "t" (.inr c7rows) "public" okDriver).batchExecuted =
      [(insertSql "public" "t" ((c7rows.headD []).map Prod.fst),
        c7rows.map fun item => ((c7rows.headD []).map Prod.fst).map
          fun col => (lookupFirst item col).getD .vNone)] :=
  c7_insert_batch "t" "public" okDriver 1 [("a", .vInt 1)] c7rows
    (by decide) (by decide) (by decide) rfl rfl rfl rfl

/-- C8: the parameter sequence update_data binds is the SET values in the
data dict's iteration order followed by the caller-supplied condition
parameters, and the SET clause pairs the columns with the placeholders in
that same order. -/
theorem c8_set_params_before_condition (table_name schema_name condition : String)
    (data : PyDict) (params : Option (List PyVal)) (driver : Driver) (connId : Nat)
    (ht : table_name ≠ "") (hd : data ≠ ([] : PyDict)) (hc : condition ≠ "")
    (hconn : driver.connectResult = .ok connId)
    (hcur : driver.cursorResult = .ok)
    (hexec : driver.executeResult = .ok)
    (hcommit : driver.commitResult = .ok) :
    (update_data table_name data condition params schema_name driver).executed =
      [("UPDATE " ++ schema_name ++ "." ++ table_name ++ " SET "
          ++ String.intercalate ", " (data.map fun p => p.1 ++ " = %s")
          ++ " WHERE " ++ condition,
        (data.map Prod.snd) ++ params.getD [])] := by
  simp [update_data, ht, hd, hc, hconn, hcur, hexec, hcommit]

theorem c8_set_params_before_condition_witness :
    (update_data "t" [("a", .vInt 1), ("b", .vStr "x")] "id = %s" (some [.vInt 9])
        "public" okDriver).executed =
      [("UPDATE " ++ "public" ++ "." ++ "t" ++ " SET "
          ++ String.intercalate ", "
            (([("a", PyVal.vInt 1), ("b", PyVal.vStr "x")] : PyDict).map
              fun p => p.1 ++ " = %s")
          ++ " WHERE " ++ "id = %s",
        (([("a", PyVal.vInt 1), ("b", PyVal.vStr "x")] : PyDict).map Prod.snd)
          ++ (some [PyVal.vInt 9]).getD [])] :=
  c8_set_params_before_condition "t" "public" "id = %s"
    [("a", .vInt 1), ("b", .vStr "x")] (some [.vInt 9]) okDriver 1
    (by decide) (by decide) (by decide) rfl rfl rfl rfl

end PgMcp
